import Mathlib

/-!
Verification of the multi-cloud deployment-topology generator.

The repository holds three Pulumi programs (src/infra/aws/__main__.py,
src/infra/azure/__main__.py, src/infra/gcp/__main__.py) and a FastAPI
service (src/api/main.py).  Each Pulumi program reads a configuration,
builds a shared network/registry subgraph, then dispatches on a
`deploymentType` string to build one of three branch subgraphs, and
finally exports a flat set of named outputs.

The shallow embedding below models each program as a pure function from a
`Config` record to a list of resource descriptors (`Res`) in construction
order, plus an export list in `pulumi.export` call order.  Pulumi `Output`
values that only exist at provisioning time (resource ids, registry
endpoints, credentials) are modelled symbolically by `refStr resource field`
for string interpolation sites and by `OutVal.ref` for exported outputs.
-/

/-- Python's `config.get(key) or default`: `None` and the empty string are
falsy, so both fall back to the default. -/
def orDefault (o : Option String) (d : String) : String :=
  match o with
  | none => d
  | some s => if s = "" then d else s

/-- Symbolic stand-in for a provisioning-time `Output` string of a resource
field (e.g. `vpc.vpc_id`, `acr.login_server`) interpolated into a template. -/
def refStr (res field : String) : String :=
  "<" ++ res ++ "." ++ field ++ ">"

/-- Error raised by `pulumi.Config.require` when a required key is absent.
This is the only failure path in any of the three programs. -/
inductive ConfigError where
  | missingKey (key : String)
deriving DecidableEq

/-- The stack configuration each program reads via `pulumi.Config()`.
Every field is optional at source level (`config.get`); `gcpProject` is the
one field fetched with `config.require`. -/
structure Config where
  deploymentType : Option String := none
  appName : Option String := none
  location : Option String := none
  gcpProject : Option String := none
  region : Option String := none
  zone : Option String := none
deriving DecidableEq

/-- One line of a rendered VM bootstrap shell script.  Plain lines are kept
verbatim as `raw`; the image-pull and image-run lines are kept structured so
their ports and image coordinates are inspectable. -/
inductive Cmd where
  | raw (s : String)
  | dockerPull (image : String)
  | dockerRun (hostPort containerPort : Nat) (image : String)
deriving DecidableEq

/-- Render one bootstrap line back to its shell text. -/
def Cmd.render : Cmd → String
  | .raw s => s
  | .dockerPull image => "docker pull " ++ image
  | .dockerRun h c image =>
      "docker run -d -p " ++ toString h ++ ":" ++ toString c ++ " " ++ image

/-- Is this line a `docker run` invocation? -/
def Cmd.isDockerRun : Cmd → Bool
  | .dockerRun _ _ _ => true
  | _ => false

/-- A security-group rule (AWS): `SecurityGroupIngressArgs` /
`SecurityGroupEgressArgs`. -/
structure NetRule where
  protocol : String
  fromPort : Nat
  toPort : Nat
  cidrBlocks : List String
deriving DecidableEq

/-- An Azure NSG `SecurityRuleArgs`. -/
structure SecRule where
  name : String
  priority : Nat
  direction : String
  access : String
  protocol : String
  sourcePortRange : String
  destinationPortRange : String
  sourceAddressPrefix : String
  destinationAddressPrefix : String
deriving DecidableEq

/-- An Azure AKS `ManagedClusterAgentPoolProfileArgs`.  The source sets only
`name`, `count`, `vm_size` and `mode`; the autoscaling bounds `min_count` /
`max_count` are never passed, so they are `none`. -/
structure AgentPool where
  name : String
  count : Nat
  vmSize : String
  mode : String
  minCount : Option Nat := none
  maxCount : Option Nat := none
deriving DecidableEq

/-- A GCP `FirewallAllowArgs`. -/
structure FwAllow where
  protocol : String
  ports : List String
deriving DecidableEq

/-- A resource descriptor: one constructor per resource type constructed by
the three programs, carrying the arguments the source passes.  String fields
that reference another resource hold `refStr` symbolic values. -/
inductive Res where
  -- aws
  | vpc (id cidrBlock : String) (availabilityZones : Nat)
        (dnsHostnames dnsSupport : Bool)
  | ecrRepo (id name : String) (scanOnPush forceDelete : Bool)
  | iamRole (id service : String)
  | rolePolicyAttach (id roleRef policyArn : String)
  | lambdaFn (id packageType imageUri roleRef : String)
             (timeout memorySize : Nat)
  | apiGw (id protocolType : String)
  | apiIntegration (id apiRef integrationType integrationUri
                    payloadFormatVersion : String)
  | apiRoute (id apiRef routeKey target : String)
  | apiStage (id apiRef name : String) (autoDeploy : Bool)
  | lambdaPermission (id action funcRef principal sourceArn : String)
  | securityGroup (id vpcRef descr : String)
                  (ingress egress : List NetRule)
  | instanceProfile (id roleRef : String)
  | ec2Instance (id instanceType : String) (sgRefs : List String)
                (amiRef subnetRef : String) (userData : List Cmd)
                (profileRef : String)
  | eksCluster (id vpcRef : String) (subnetRefs : List String)
               (instanceType : String)
               (desiredCapacity minSize maxSize : Nat)
  -- azure
  | resourceGroup (id location : String)
  | acr (id rgRef location skuName : String) (adminUserEnabled : Bool)
  | storageAccount (id rgRef skuName kind : String)
  | appServicePlan (id rgRef kind : String) (reserved : Bool)
                   (skuName skuTier : String)
  | functionApp (id rgRef planRef kind linuxFxVersion : String)
                (appSettings : List (String × String))
  | vnet (id rgRef : String) (addressSpaces : List String)
  | subnet (id rgRef vnetRef addressPrefix : String)
  | publicIp (id rgRef allocationMethod skuName : String)
  | nsg (id rgRef : String) (securityRules : List SecRule)
  | nic (id rgRef subnetRef publicIpRef nsgRef : String)
  | azureVm (id rgRef nicRef vmSize computerName
             adminUsername adminPassword : String)
            (customData : List Cmd)
            (imagePublisher imageOffer imageSku : String)
  | aksCluster (id rgRef dnsPrefix : String) (pools : List AgentPool)
  -- gcp
  | projectService (id service project : String)
  | artifactRepo (id location repositoryId format project : String)
  | gcsBucket (id location project : String) (uniformAccess : Bool)
  | cloudRunService (id location project image : String)
                    (containerPort maxInstanceCount : Nat)
  | runIamMember (id serviceRef role member : String)
  | gcpNetwork (id : String) (autoCreateSubnetworks : Bool)
               (project : String)
  | gcpFirewall (id networkRef project : String) (allows : List FwAllow)
                (sourceRanges targetTags : List String)
  | svcAccount (id accountId displayName project : String)
  | projectIamMember (id project role member : String)
  | gceInstance (id machineType zone project bootImage networkRef : String)
                (startupScript : List Cmd) (saEmailRef : String)
                (scopes tags : List String)
  | gkeCluster (id location project : String) (initialNodeCount : Nat)
               (minMasterVersion machineType : String)
               (oauthScopes : List String) (deletionProtection : Bool)
deriving DecidableEq

/-- The `id` (Pulumi resource name) of a descriptor. -/
def Res.rid : Res → String
  | .vpc id _ _ _ _ => id
  | .ecrRepo id _ _ _ => id
  | .iamRole id _ => id
  | .rolePolicyAttach id _ _ => id
  | .lambdaFn id _ _ _ _ _ => id
  | .apiGw id _ => id
  | .apiIntegration id _ _ _ _ => id
  | .apiRoute id _ _ _ => id
  | .apiStage id _ _ _ => id
  | .lambdaPermission id _ _ _ _ => id
  | .securityGroup id _ _ _ _ => id
  | .instanceProfile id _ => id
  | .ec2Instance id _ _ _ _ _ _ => id
  | .eksCluster id _ _ _ _ _ _ => id
  | .resourceGroup id _ => id
  | .acr id _ _ _ _ => id
  | .storageAccount id _ _ _ => id
  | .appServicePlan id _ _ _ _ _ => id
  | .functionApp id _ _ _ _ _ => id
  | .vnet id _ _ => id
  | .subnet id _ _ _ => id
  | .publicIp id _ _ _ => id
  | .nsg id _ _ => id
  | .nic id _ _ _ _ => id
  | .azureVm id _ _ _ _ _ _ _ _ _ _ => id
  | .aksCluster id _ _ _ => id
  | .projectService id _ _ => id
  | .artifactRepo id _ _ _ _ => id
  | .gcsBucket id _ _ _ => id
  | .cloudRunService id _ _ _ _ _ => id
  | .runIamMember id _ _ _ => id
  | .gcpNetwork id _ _ => id
  | .gcpFirewall id _ _ _ _ _ => id
  | .svcAccount id _ _ _ => id
  | .projectIamMember id _ _ _ => id
  | .gceInstance id _ _ _ _ _ _ _ _ _ => id
  | .gkeCluster id _ _ _ _ _ _ _ => id

/-- An exported output value: either a literal string known at resolve time
or a reference to a provisioning-time field of a resource. -/
inductive OutVal where
  | lit (s : String)
  | ref (res field : String)
deriving DecidableEq

/-- Pulumi exports overwrite by name: the effective value of a key is the
value of its last `pulumi.export` call. -/
def exportLookup (xs : List (String × OutVal)) (k : String) : Option OutVal :=
  xs.reverse.lookup k

/-! ### AWS (src/infra/aws/__main__.py) -/

/-- `deployment_type = config.get("deploymentType") or "lambda"`. -/
def awsDeploymentType (c : Config) : String :=
  orDefault c.deploymentType "lambda"

/-- `app_name = config.get("appName") or "multi-cloud-api"`. -/
def awsAppName (c : Config) : String :=
  orDefault c.appName "multi-cloud-api"

/-- The shared prefix subgraph built unconditionally before the dispatch:
the VPC and the ECR repository. -/
def awsShared (an : String) : List Res :=
  [ .vpc (an ++ "-vpc") "10.0.0.0/16" 2 true true,
    .ecrRepo (an ++ "-repo") an true true ]

/-- The `lambda` branch: IAM role, policy attachment, container-image Lambda,
HTTP API gateway, integration, default route, default stage, invoke
permission. -/
def awsLambdaBranch (an : String) : List Res :=
  [ .iamRole (an ++ "-lambda-role") "lambda.amazonaws.com",
    .rolePolicyAttach (an ++ "-lambda-policy")
      (refStr (an ++ "-lambda-role") "name")
      "arn:aws:iam::aws:policy/service-role/AWSLambdaBasicExecutionRole",
    .lambdaFn (an ++ "-function") "Image"
      (refStr (an ++ "-repo") "repository_url" ++ ":latest")
      (refStr (an ++ "-lambda-role") "arn") 30 512,
    .apiGw (an ++ "-api") "HTTP",
    .apiIntegration (an ++ "-integration") (refStr (an ++ "-api") "id")
      "AWS_PROXY" (refStr (an ++ "-function") "arn") "2.0",
    .apiRoute (an ++ "-route") (refStr (an ++ "-api") "id") "$default"
      ("integrations/" ++ refStr (an ++ "-integration") "id"),
    .apiStage (an ++ "-stage") (refStr (an ++ "-api") "id") "$default" true,
    .lambdaPermission (an ++ "-lambda-permission") "lambda:InvokeFunction"
      (refStr (an ++ "-function") "name") "apigateway.amazonaws.com"
      (refStr (an ++ "-api") "execution_arn" ++ "/*/*") ]

/-- The EC2 security group's ingress rules: TCP 8080 and TCP 80 from
anywhere, in source order. -/
def awsSgIngress : List NetRule :=
  [ ⟨"tcp", 8080, 8080, ["0.0.0.0/0"]⟩,
    ⟨"tcp", 80, 80, ["0.0.0.0/0"]⟩ ]

/-- The EC2 security group's egress rules: all protocols, all ports, to
anywhere. -/
def awsSgEgress : List NetRule :=
  [ ⟨"-1", 0, 0, ["0.0.0.0/0"]⟩ ]

/-- The EC2 user-data script, a function of the ECR repository URL
(`pulumi.Output.all(ecr_repo.repository_url).apply(...)`). -/
def awsUserData (repoUrl : String) : List Cmd :=
  [ .raw "#!/bin/bash",
    .raw "yum update -y",
    .raw "yum install -y docker",
    .raw "service docker start",
    .raw "usermod -a -G docker ec2-user",
    .raw "curl \"https://awscli.amazonaws.com/awscli-exe-linux-x86_64.zip\" -o \"awscliv2.zip\"",
    .raw "unzip awscliv2.zip",
    .raw "./aws/install",
    .raw ("aws ecr get-login-password --region us-east-1 | docker login --username AWS --password-stdin "
          ++ repoUrl),
    .dockerPull (repoUrl ++ ":latest"),
    .dockerRun 80 8080 (repoUrl ++ ":latest") ]

/-- The `ec2` branch: security group, user-data, IAM role + ECR read policy,
instance profile, and the instance itself (the AMI lookup is a data source,
modelled as a symbolic ref). -/
def awsEc2Branch (an : String) : List Res :=
  [ .securityGroup (an ++ "-sg") (refStr (an ++ "-vpc") "vpc_id")
      "Allow HTTP traffic" awsSgIngress awsSgEgress,
    .iamRole (an ++ "-ec2-role") "ec2.amazonaws.com",
    .rolePolicyAttach (an ++ "-ecr-policy")
      (refStr (an ++ "-ec2-role") "name")
      "arn:aws:iam::aws:policy/AmazonEC2ContainerRegistryReadOnly",
    .instanceProfile (an ++ "-instance-profile")
      (refStr (an ++ "-ec2-role") "name"),
    .ec2Instance (an ++ "-instance") "t3.small"
      [refStr (an ++ "-sg") "id"]
      (refStr "amzn2-ami-hvm-*-x86_64-gp2" "id")
      (refStr (an ++ "-vpc") "public_subnet_ids[0]")
      (awsUserData (refStr (an ++ "-repo") "repository_url"))
      (refStr (an ++ "-instance-profile") "name") ]

/-- The `eks` branch: one managed cluster with a fixed t3.medium node group,
desired capacity 2, bounds 1 and 3. -/
def awsEksBranch (an : String) : List Res :=
  [ .eksCluster (an ++ "-eks") (refStr (an ++ "-vpc") "vpc_id")
      [refStr (an ++ "-vpc") "public_subnet_ids",
       refStr (an ++ "-vpc") "private_subnet_ids"]
      "t3.medium" 2 1 3 ]

/-- The whole AWS program: shared prefix, then the `if/elif` dispatch on
`deployment_type`.  There is no `else` arm: an unrecognised value builds no
branch resources and raises no error. -/
def awsResolve (c : Config) : Except ConfigError (List Res) :=
  let dt := awsDeploymentType c
  let an := awsAppName c
  .ok (awsShared an ++
    (if dt = "lambda" then awsLambdaBranch an
     else if dt = "ec2" then awsEc2Branch an
     else if dt = "eks" then awsEksBranch an
     else []))

/-- The AWS `pulumi.export` calls in program order: branch exports first,
then the three common exports. -/
def awsExports (c : Config) : List (String × OutVal) :=
  let dt := awsDeploymentType c
  let an := awsAppName c
  (if dt = "lambda" then
     [("api_endpoint", .ref (an ++ "-api") "api_endpoint"),
      ("lambda_function_name", .ref (an ++ "-function") "name")]
   else if dt = "ec2" then
     [("ec2_public_ip", .ref (an ++ "-instance") "public_ip"),
      ("ec2_public_dns", .ref (an ++ "-instance") "public_dns")]
   else if dt = "eks" then
     [("kubeconfig", .ref (an ++ "-eks") "kubeconfig"),
      ("cluster_name", .ref (an ++ "-eks") "eks_cluster.name")]
   else []) ++
  [("ecr_repository_url", .ref (an ++ "-repo") "repository_url"),
   ("deployment_type", .lit dt),
   ("vpc_id", .ref (an ++ "-vpc") "vpc_id")]

/-! ### Azure (src/infra/azure/__main__.py) -/

/-- `deployment_type = config.get("deploymentType") or "functions"`. -/
def azureDeploymentType (c : Config) : String :=
  orDefault c.deploymentType "functions"

/-- `app_name = config.get("appName") or "multi-cloud-api"`. -/
def azureAppName (c : Config) : String :=
  orDefault c.appName "multi-cloud-api"

/-- `location = config.get("location") or "eastus"`. -/
def azureLocation (c : Config) : String :=
  orDefault c.location "eastus"

/-- The shared prefix subgraph: resource group and container registry. -/
def azureShared (an loc : String) : List Res :=
  [ .resourceGroup (an ++ "-rg") loc,
    .acr (an ++ "acr") (refStr (an ++ "-rg") "name")
      (refStr (an ++ "-rg") "location") "Basic" true ]

/-- The `functions` branch: storage account, elastic-premium Linux plan,
and a container Function App wired to the ACR image. -/
def azureFunctionsBranch (an : String) : List Res :=
  [ .storageAccount (an ++ "storage") (refStr (an ++ "-rg") "name")
      "Standard_LRS" "StorageV2",
    .appServicePlan (an ++ "-plan") (refStr (an ++ "-rg") "name")
      "Linux" true "EP1" "ElasticPremium",
    .functionApp (an ++ "-func") (refStr (an ++ "-rg") "name")
      (refStr (an ++ "-plan") "id") "functionapp,linux,container"
      ("DOCKER|" ++ refStr (an ++ "acr") "login_server" ++ "/" ++ an
        ++ ":latest")
      [("FUNCTIONS_EXTENSION_VERSION", "~4"),
       ("FUNCTIONS_WORKER_RUNTIME", "python"),
       ("AzureWebJobsStorage",
        refStr (an ++ "storage") "connection_string"),
       ("DOCKER_REGISTRY_SERVER_URL",
        "https://" ++ refStr (an ++ "acr") "login_server"),
       ("DOCKER_REGISTRY_SERVER_USERNAME", refStr (an ++ "acr") "name"),
       ("DOCKER_REGISTRY_SERVER_PASSWORD",
        refStr (an ++ "acr") "passwords[0].value")] ]

/-- The NSG's security rules: inbound TCP 80 and inbound TCP 8080, both
Allow, from any source.  No outbound rule is declared, so the platform's
default outbound-allow rules stay in effect. -/
def azureNsgRules : List SecRule :=
  [ ⟨"allow-http", 1000, "Inbound", "Allow", "Tcp", "*", "80", "*", "*"⟩,
    ⟨"allow-8080", 1001, "Inbound", "Allow", "Tcp", "*", "8080", "*", "*"⟩ ]

/-- The VM's cloud-init script, a function of the ACR login server, the ACR
name, the resource-group name and the app name
(`pulumi.Output.all(acr.login_server, acr.name, resource_group.name)`). -/
def azureCustomData (loginServer acrName rgName an : String) : List Cmd :=
  [ .raw "#!/bin/bash",
    .raw "apt-get update",
    .raw "apt-get install -y docker.io",
    .raw "systemctl start docker",
    .raw "systemctl enable docker",
    .raw ("ACR_PASSWORD=$(az acr credential show --name " ++ acrName
          ++ " --resource-group " ++ rgName
          ++ " --query \"passwords[0].value\" -o tsv)"),
    .raw ("echo $ACR_PASSWORD | docker login " ++ loginServer ++ " -u "
          ++ acrName ++ " --password-stdin"),
    .dockerPull (loginServer ++ "/" ++ an ++ ":latest"),
    .dockerRun 80 8080 (loginServer ++ "/" ++ an ++ ":latest") ]

/-- The `vm` branch: vnet, subnet, public IP, NSG, NIC, and the virtual
machine with literal admin credentials and the cloud-init payload. -/
def azureVmBranch (an : String) : List Res :=
  [ .vnet (an ++ "-vnet") (refStr (an ++ "-rg") "name") ["10.0.0.0/16"],
    .subnet (an ++ "-subnet") (refStr (an ++ "-rg") "name")
      (refStr (an ++ "-vnet") "name") "10.0.1.0/24",
    .publicIp (an ++ "-ip") (refStr (an ++ "-rg") "name") "Static"
      "Standard",
    .nsg (an ++ "-nsg") (refStr (an ++ "-rg") "name") azureNsgRules,
    .nic (an ++ "-nic") (refStr (an ++ "-rg") "name")
      (refStr (an ++ "-subnet") "id") (refStr (an ++ "-ip") "id")
      (refStr (an ++ "-nsg") "id"),
    .azureVm (an ++ "-vm") (refStr (an ++ "-rg") "name")
      (refStr (an ++ "-nic") "id") "Standard_B2s" an
      "azureuser" "P@ssw0rd123!"
      (azureCustomData (refStr (an ++ "acr") "login_server")
        (refStr (an ++ "acr") "name") (refStr (an ++ "-rg") "name") an)
      "Canonical" "0001-com-ubuntu-server-focal" "20_04-lts-gen2" ]

/-- The `aks` branch: one managed cluster with a single system agent pool of
2 Standard_B2s nodes (no autoscaling bounds are configured). -/
def azureAksBranch (an : String) : List Res :=
  [ .aksCluster (an ++ "-aks") (refStr (an ++ "-rg") "name") an
      [⟨"agentpool", 2, "Standard_B2s", "System", none, none⟩] ]

/-- The whole Azure program: shared prefix, then the `if/elif` dispatch.
As for AWS, there is no `else` arm. -/
def azureResolve (c : Config) : Except ConfigError (List Res) :=
  let dt := azureDeploymentType c
  let an := azureAppName c
  let loc := azureLocation c
  .ok (azureShared an loc ++
    (if dt = "functions" then azureFunctionsBranch an
     else if dt = "vm" then azureVmBranch an
     else if dt = "aks" then azureAksBranch an
     else []))

/-- The Azure `pulumi.export` calls in program order. -/
def azureExports (c : Config) : List (String × OutVal) :=
  let dt := azureDeploymentType c
  let an := azureAppName c
  (if dt = "functions" then
     [("function_app_url", .ref (an ++ "-func") "default_host_name"),
      ("function_app_name", .ref (an ++ "-func") "name")]
   else if dt = "vm" then
     [("vm_public_ip", .ref (an ++ "-ip") "ip_address"),
      ("vm_name", .ref (an ++ "-vm") "name")]
   else if dt = "aks" then
     [("kubeconfig", .ref (an ++ "-aks") "kubeconfigs[0].value"),
      ("aks_cluster_name", .ref (an ++ "-aks") "name")]
   else []) ++
  [("acr_login_server", .ref (an ++ "acr") "login_server"),
   ("deployment_type", .lit dt),
   ("resource_group_name", .ref (an ++ "-rg") "name")]

/-! ### GCP (src/infra/gcp/__main__.py) -/

/-- `deployment_type = config.get("deploymentType") or "functions"`. -/
def gcpDeploymentType (c : Config) : String :=
  orDefault c.deploymentType "functions"

/-- `app_name = config.get("appName") or "multi-cloud-api"`. -/
def gcpAppName (c : Config) : String :=
  orDefault c.appName "multi-cloud-api"

/-- `region = config.get("region") or "us-central1"`. -/
def gcpRegion (c : Config) : String :=
  orDefault c.region "us-central1"

/-- `zone = config.get("zone") or "us-central1-a"`. -/
def gcpZone (c : Config) : String :=
  orDefault c.zone "us-central1-a"

/-- The `apis` list enabled for the project. -/
def gcpApis : List String :=
  [ "compute.googleapis.com",
    "container.googleapis.com",
    "cloudfunctions.googleapis.com",
    "cloudbuild.googleapis.com",
    "artifactregistry.googleapis.com" ]

/-- The shared prefix subgraph: the five API-enablement services and the
Artifact Registry repository. -/
def gcpShared (an region project : String) : List Res :=
  gcpApis.map (fun api => .projectService ("enable-" ++ api) api project) ++
  [ .artifactRepo (an ++ "-repo") region an "DOCKER" project ]

/-- The `functions` branch: a source bucket, a Cloud Run v2 service on
container port 8080 with max 10 instances, and a public invoker binding. -/
def gcpFunctionsBranch (an region project : String) : List Res :=
  [ .gcsBucket (an ++ "-bucket") region project true,
    .cloudRunService (an ++ "-service") region project
      (region ++ "-docker.pkg.dev/" ++ project ++ "/"
        ++ refStr (an ++ "-repo") "repository_id" ++ "/" ++ an ++ ":latest")
      8080 10,
    .runIamMember (an ++ "-invoker") (refStr (an ++ "-service") "name")
      "roles/run.invoker" "allUsers" ]

/-- The firewall's allow list: TCP ports 80 and 8080. -/
def gcpFirewallAllows : List FwAllow :=
  [ ⟨"tcp", ["80", "8080"]⟩ ]

/-- The Compute Engine startup script, a function of the region, project,
repository id and app name (`pulumi.Output.all(region, project,
artifact_repo.repository_id, app_name)`). -/
def gcpStartupScript (region project repoId an : String) : List Cmd :=
  [ .raw "#!/bin/bash",
    .raw "apt-get update",
    .raw "apt-get install -y docker.io",
    .raw ("gcloud auth configure-docker " ++ region ++ "-docker.pkg.dev"),
    .dockerPull (region ++ "-docker.pkg.dev/" ++ project ++ "/" ++ repoId
      ++ "/" ++ an ++ ":latest"),
    .dockerRun 80 8080 (region ++ "-docker.pkg.dev/" ++ project ++ "/"
      ++ repoId ++ "/" ++ an ++ ":latest") ]

/-- The `compute` branch: network, firewall, service account, storage IAM
binding, and the instance with the startup script. -/
def gcpComputeBranch (an region project zone : String) : List Res :=
  [ .gcpNetwork (an ++ "-network") true project,
    .gcpFirewall (an ++ "-firewall")
      (refStr (an ++ "-network") "self_link") project
      gcpFirewallAllows ["0.0.0.0/0"] [an],
    .svcAccount (an ++ "-sa") (an ++ "-sa") (an ++ " Service Account")
      project,
    .projectIamMember (an ++ "-storage-access") project
      "roles/storage.objectViewer"
      ("serviceAccount:" ++ refStr (an ++ "-sa") "email"),
    .gceInstance (an ++ "-instance") "e2-small" zone project
      "ubuntu-os-cloud/ubuntu-2004-lts" (refStr (an ++ "-network") "id")
      (gcpStartupScript region project
        (refStr (an ++ "-repo") "repository_id") an)
      (refStr (an ++ "-sa") "email")
      ["https://www.googleapis.com/auth/cloud-platform"] [an] ]

/-- The `gke` branch: one cluster with 2 initial e2-medium nodes (no
autoscaling is configured). -/
def gcpGkeBranch (an project zone : String) : List Res :=
  [ .gkeCluster (an ++ "-gke") zone project 2 "latest" "e2-medium"
      ["https://www.googleapis.com/auth/compute",
       "https://www.googleapis.com/auth/devstorage.read_only",
       "https://www.googleapis.com/auth/logging.write",
       "https://www.googleapis.com/auth/monitoring"]
      false ]

/-- The whole GCP program.  `config.require("gcpProject")` runs before any
resource is constructed, so a missing project aborts with zero descriptors;
after that the structure mirrors the other two clouds, again with no `else`
arm on the dispatch. -/
def gcpResolve (c : Config) : Except ConfigError (List Res) :=
  match c.gcpProject with
  | none => .error (.missingKey "gcpProject")
  | some project =>
    let dt := gcpDeploymentType c
    let an := gcpAppName c
    let region := gcpRegion c
    let zone := gcpZone c
    .ok (gcpShared an region project ++
      (if dt = "functions" then gcpFunctionsBranch an region project
       else if dt = "compute" then gcpComputeBranch an region project zone
       else if dt = "gke" then gcpGkeBranch an project zone
       else []))

/-- The GCP `pulumi.export` calls in program order.  The export list is only
reached when `config.require` succeeded. -/
def gcpExports (c : Config) : Except ConfigError (List (String × OutVal)) :=
  match c.gcpProject with
  | none => .error (.missingKey "gcpProject")
  | some project =>
    let dt := gcpDeploymentType c
    let an := gcpAppName c
    let region := gcpRegion c
    .ok
      ((if dt = "functions" then
         [("cloud_run_url", .ref (an ++ "-service") "uri"),
          ("service_name", .ref (an ++ "-service") "name")]
       else if dt = "compute" then
         [("instance_external_ip",
           .ref (an ++ "-instance") "access_configs[0].nat_ip"),
          ("instance_name", .ref (an ++ "-instance") "name")]
       else if dt = "gke" then
         [("kubeconfig", .ref (an ++ "-gke") "kubeconfig"),
          ("cluster_name", .ref (an ++ "-gke") "name"),
          ("cluster_endpoint", .ref (an ++ "-gke") "endpoint")]
       else []) ++
      [("artifact_registry_url",
        .lit (region ++ "-docker.pkg.dev/" ++ project ++ "/"
          ++ refStr (an ++ "-repo") "name")),
       ("deployment_type", .lit dt),
       ("project_id", .lit project)])

/-! ### HTTP service (src/api/main.py) -/

/-- A registered FastAPI route: HTTP method, path, and the constant JSON
object the handler returns, as a field-name/string-value map (both handlers
return flat dicts of strings and take no request data). -/
structure ApiRoute where
  method : String
  path : String
  response : List (String × String)
deriving DecidableEq

/-- The routes registered on the FastAPI app, in decoration order:
`GET /` and `GET /health`. -/
def apiRoutes : List ApiRoute :=
  [ ⟨"GET", "/", [("message", "Hello from Multi-Cloud API!")]⟩,
    ⟨"GET", "/health", [("status", "healthy")]⟩ ]

/-! ### Derived views used by the claims -/

/-- The `deploymentType` values each program's dispatch recognises. -/
def awsAllowedTypes : List String := ["lambda", "ec2", "eks"]

/-- Azure's recognised `deploymentType` values. -/
def azureAllowedTypes : List String := ["functions", "vm", "aks"]

/-- GCP's recognised `deploymentType` values. -/
def gcpAllowedTypes : List String := ["functions", "compute", "gke"]

/-- The individual ports an AWS security-group rule covers
(`from_port` ... `to_port`). -/
def portsOfRule (r : NetRule) : List Nat :=
  List.range' r.fromPort (r.toPort + 1 - r.fromPort)

/-- All TCP ports opened by a list of ingress rules. -/
def ingressTcpPorts (rules : List NetRule) : List Nat :=
  (rules.filter (fun r => r.protocol == "tcp")).flatMap portsOfRule

/-- Does some egress rule allow every protocol and port to anywhere? -/
def allowsAllEgress (rules : List NetRule) : Prop :=
  ∃ r ∈ rules, r.protocol = "-1" ∧ r.fromPort = 0 ∧ r.toPort = 0 ∧
    "0.0.0.0/0" ∈ r.cidrBlocks

/-- The destination port ranges of the inbound Allow TCP rules of an NSG. -/
def nsgInboundAllowTcpPorts (rules : List SecRule) : List String :=
  (rules.filter (fun r =>
    r.direction == "Inbound" && r.access == "Allow" && r.protocol == "Tcp")
  ).map (fun r => r.destinationPortRange)

/-- The outbound rules of an NSG (none declared means the platform default
outbound-allow rules remain in effect). -/
def nsgOutboundRules (rules : List SecRule) : List SecRule :=
  rules.filter (fun r => r.direction == "Outbound")

/-- A uniform view of a managed cluster's node pool: node count, optional
autoscaling bounds, machine size. -/
structure NodePoolView where
  count : Nat
  minCount : Option Nat
  maxCount : Option Nat
  machineType : String
deriving DecidableEq

/-- Extract the node-pool view of a managed-cluster descriptor: EKS clusters
carry explicit `desired_capacity`/`min_size`/`max_size`, AKS exposes its
first agent-pool profile, GKE its `initial_node_count` and machine type.
Non-cluster descriptors yield `none`. -/
def Res.nodePool : Res → Option NodePoolView
  | .eksCluster _ _ _ mt desired mn mx => some ⟨desired, some mn, some mx, mt⟩
  | .aksCluster _ _ _ pools =>
      pools.head?.map (fun p => ⟨p.count, p.minCount, p.maxCount, p.vmSize⟩)
  | .gkeCluster _ _ _ n _ mt _ _ => some ⟨n, none, none, mt⟩
  | _ => none

/-- The admin credentials of a VM descriptor, when it has any. -/
def Res.vmAdminCreds : Res → Option (String × String)
  | .azureVm _ _ _ _ _ u p _ _ _ _ => some (u, p)
  | _ => none

/-! ### Claims -/

/-- C3: when `deploymentType` is unspecified, every cloud's resolver
defaults to its serverless branch: `lambda` for AWS, `functions` for Azure
and GCP, and the resolved topology is the shared prefix plus the serverless
branch subgraph. -/
theorem claim_C3_default_serverless (c : Config)
    (h : c.deploymentType = none) :
    awsDeploymentType c = "lambda" ∧
    azureDeploymentType c = "functions" ∧
    gcpDeploymentType c = "functions" ∧
    awsResolve c =
      .ok (awsShared (awsAppName c) ++ awsLambdaBranch (awsAppName c)) ∧
    azureResolve c =
      .ok (azureShared (azureAppName c) (azureLocation c) ++
        azureFunctionsBranch (azureAppName c)) ∧
    (∀ p, c.gcpProject = some p →
      gcpResolve c =
        .ok (gcpShared (gcpAppName c) (gcpRegion c) p ++
          gcpFunctionsBranch (gcpAppName c) (gcpRegion c) p)) := by
  have haws : awsDeploymentType c = "lambda" := by
    simp [awsDeploymentType, orDefault, h]
  have haz : azureDeploymentType c = "functions" := by
    simp [azureDeploymentType, orDefault, h]
  have hg : gcpDeploymentType c = "functions" := by
    simp [gcpDeploymentType, orDefault, h]
  refine ⟨haws, haz, hg, ?_, ?_, ?_⟩
  · simp [awsResolve, haws]
  · simp [azureResolve, haz]
  · intro p hp
    simp [gcpResolve, hp, hg]

/-- Witness for C3 at a concrete configuration. -/
theorem claim_C3_default_serverless_witness :
    awsResolve {gcpProject := some "proj"} =
      .ok (awsShared "multi-cloud-api" ++ awsLambdaBranch "multi-cloud-api") ∧
    gcpResolve {gcpProject := some "proj"} =
      .ok (gcpShared "multi-cloud-api" "us-central1" "proj" ++
        gcpFunctionsBranch "multi-cloud-api" "us-central1" "proj") := by
  have h := claim_C3_default_serverless {gcpProject := some "proj"} rfl
  exact ⟨h.2.2.2.1, h.2.2.2.2.2 "proj" rfl⟩

/-- C5: a GCP configuration without the required project aborts with the
missing-key configuration error of `config.require("gcpProject")`, and no
topology (hence no resource descriptor) is ever produced. -/
theorem claim_C5_gcp_requires_project (c : Config)
    (h : c.gcpProject = none) :
    gcpResolve c = .error (.missingKey "gcpProject") ∧
    ∀ t, gcpResolve c ≠ .ok t := by
  refine ⟨by simp [gcpResolve, h], ?_⟩
  intro t hc
  rw [gcpResolve, h] at hc
  exact Except.noConfusion hc

/-- Witness for C5 at the empty configuration. -/
theorem claim_C5_gcp_requires_project_witness :
    gcpResolve {} = .error (.missingKey "gcpProject") :=
  (claim_C5_gcp_requires_project {} rfl).1

/-- C8: each resolver is a pure function of the configuration, so two
invocations on identical input yield structurally identical topologies —
in particular the same descriptor ids. -/
theorem claim_C8_resolve_deterministic (c : Config) :
    awsResolve c = awsResolve c ∧
    azureResolve c = azureResolve c ∧
    gcpResolve c = gcpResolve c ∧
    (awsResolve c).map (fun t => t.map Res.rid) =
      (awsResolve c).map (fun t => t.map Res.rid) ∧
    (azureResolve c).map (fun t => t.map Res.rid) =
      (azureResolve c).map (fun t => t.map Res.rid) ∧
    (gcpResolve c).map (fun t => t.map Res.rid) =
      (gcpResolve c).map (fun t => t.map Res.rid) :=
  ⟨rfl, rfl, rfl, rfl, rfl, rfl⟩

/-- C1, counterexample: at `cloud=aws, deploymentType=functions` the
resolver does not fail — there is no `else` arm on the dispatch — and the
two shared-prefix descriptors (VPC and ECR repository) are constructed, so
the claimed `ConfigurationError` with zero descriptors is refuted. -/
theorem claim_C1_counterexample :
    awsDeploymentType
      {deploymentType := some "functions", appName := some "demo"} ∉
      awsAllowedTypes ∧
    awsResolve {deploymentType := some "functions", appName := some "demo"} =
      .ok (awsShared "demo") ∧
    (awsShared "demo").length = 2 :=
  ⟨by decide, rfl, rfl⟩

/-- C1, amended: a `deploymentType` outside the cloud's allowed set is
accepted silently; the resolver returns exactly the shared prefix
descriptors (network and registry; for GCP also the API enablement
services), builds no branch descriptors, and exports only the common
outputs. -/
theorem claim_C1_amended_silent_fallthrough
    (c₁ c₂ c₃ : Config) (p : String)
    (h1 : awsDeploymentType c₁ ∉ awsAllowedTypes)
    (h2 : azureDeploymentType c₂ ∉ azureAllowedTypes)
    (h3 : gcpDeploymentType c₃ ∉ gcpAllowedTypes)
    (hp : c₃.gcpProject = some p) :
    awsResolve c₁ = .ok (awsShared (awsAppName c₁)) ∧
    awsExports c₁ =
      [("ecr_repository_url",
        .ref (awsAppName c₁ ++ "-repo") "repository_url"),
       ("deployment_type", .lit (awsDeploymentType c₁)),
       ("vpc_id", .ref (awsAppName c₁ ++ "-vpc") "vpc_id")] ∧
    azureResolve c₂ =
      .ok (azureShared (azureAppName c₂) (azureLocation c₂)) ∧
    azureExports c₂ =
      [("acr_login_server", .ref (azureAppName c₂ ++ "acr") "login_server"),
       ("deployment_type", .lit (azureDeploymentType c₂)),
       ("resource_group_name", .ref (azureAppName c₂ ++ "-rg") "name")] ∧
    gcpResolve c₃ = .ok (gcpShared (gcpAppName c₃) (gcpRegion c₃) p) ∧
    gcpExports c₃ =
      .ok [("artifact_registry_url",
            .lit (gcpRegion c₃ ++ "-docker.pkg.dev/" ++ p ++ "/"
              ++ refStr (gcpAppName c₃ ++ "-repo") "name")),
           ("deployment_type", .lit (gcpDeploymentType c₃)),
           ("project_id", .lit p)] := by
  simp only [awsAllowedTypes, azureAllowedTypes, gcpAllowedTypes,
    List.mem_cons, List.not_mem_nil, or_false, not_or] at h1 h2 h3
  obtain ⟨ha, hb, hc⟩ := h1
  obtain ⟨hd, he, hf⟩ := h2
  obtain ⟨hg, hh, hi⟩ := h3
  refine ⟨?_, ?_, ?_, ?_, ?_, ?_⟩
  · simp [awsResolve, ha, hb, hc]
  · simp [awsExports, ha, hb, hc]
  · simp [azureResolve, hd, he, hf]
  · simp [azureExports, hd, he, hf]
  · simp [gcpResolve, hp, hg, hh, hi]
  · simp [gcpExports, hp, hg, hh, hi]

/-- Witness for the amended C1 at a concrete unrecognised type. -/
theorem claim_C1_amended_silent_fallthrough_witness :
    awsResolve {deploymentType := some "bogus"} =
      .ok (awsShared "multi-cloud-api") ∧
    gcpResolve {deploymentType := some "bogus", gcpProject := some "proj"} =
      .ok (gcpShared "multi-cloud-api" "us-central1" "proj") ∧
    gcpExports {deploymentType := some "bogus", gcpProject := some "proj"} =
      .ok [("artifact_registry_url",
            .lit ("us-central1-docker.pkg.dev/proj/"
              ++ refStr "multi-cloud-api-repo" "name")),
           ("deployment_type", .lit "bogus"),
           ("project_id", .lit "proj")] := by
  have h := claim_C1_amended_silent_fallthrough
    {deploymentType := some "bogus"} {deploymentType := some "bogus"}
    {deploymentType := some "bogus", gcpProject := some "proj"} "proj"
    (by decide) (by decide) (by decide) rfl
  exact ⟨h.1, h.2.2.2.2.1, h.2.2.2.2.2⟩

/-- C2: for every cloud and valid `deploymentType`, the effective export set
(last `pulumi.export` of a name wins) maps `deployment_type` to the resolved
configuration value and the cloud-identifying key (`vpc_id`,
`resource_group_name`, `project_id`) to the corresponding value; the
branch-specific exports use different names, so they never overwrite the
common keys. -/
theorem claim_C2_common_exports (c₁ c₂ c₃ : Config) (p : String)
    (_h1 : awsDeploymentType c₁ ∈ awsAllowedTypes)
    (_h2 : azureDeploymentType c₂ ∈ azureAllowedTypes)
    (_h3 : gcpDeploymentType c₃ ∈ gcpAllowedTypes)
    (hp : c₃.gcpProject = some p) :
    exportLookup (awsExports c₁) "deployment_type" =
      some (.lit (awsDeploymentType c₁)) ∧
    exportLookup (awsExports c₁) "vpc_id" =
      some (.ref (awsAppName c₁ ++ "-vpc") "vpc_id") ∧
    exportLookup (azureExports c₂) "deployment_type" =
      some (.lit (azureDeploymentType c₂)) ∧
    exportLookup (azureExports c₂) "resource_group_name" =
      some (.ref (azureAppName c₂ ++ "-rg") "name") ∧
    ∃ xs, gcpExports c₃ = .ok xs ∧
      exportLookup xs "deployment_type" =
        some (.lit (gcpDeploymentType c₃)) ∧
      exportLookup xs "project_id" = some (.lit p) := by
  refine ⟨?_, ?_, ?_, ?_, ?_⟩
  · simp [exportLookup, awsExports, List.lookup]
  · simp [exportLookup, awsExports, List.lookup]
  · simp [exportLookup, azureExports, List.lookup]
  · simp [exportLookup, azureExports, List.lookup]
  · have hxs :
        gcpExports c₃ =
          .ok ((if gcpDeploymentType c₃ = "functions" then
             [("cloud_run_url", .ref (gcpAppName c₃ ++ "-service") "uri"),
              ("service_name", .ref (gcpAppName c₃ ++ "-service") "name")]
           else if gcpDeploymentType c₃ = "compute" then
             [("instance_external_ip",
               .ref (gcpAppName c₃ ++ "-instance") "access_configs[0].nat_ip"),
              ("instance_name", .ref (gcpAppName c₃ ++ "-instance") "name")]
           else if gcpDeploymentType c₃ = "gke" then
             [("kubeconfig", .ref (gcpAppName c₃ ++ "-gke") "kubeconfig"),
              ("cluster_name", .ref (gcpAppName c₃ ++ "-gke") "name"),
              ("cluster_endpoint", .ref (gcpAppName c₃ ++ "-gke") "endpoint")]
           else []) ++
          [("artifact_registry_url",
            .lit (gcpRegion c₃ ++ "-docker.pkg.dev/" ++ p ++ "/"
              ++ refStr (gcpAppName c₃ ++ "-repo") "name")),
           ("deployment_type", .lit (gcpDeploymentType c₃)),
           ("project_id", .lit p)]) := by
      simp [gcpExports, hp]
    refine ⟨_, hxs, ?_, ?_⟩
    · simp [exportLookup, List.lookup]
    · simp [exportLookup, List.lookup]

/-- Witness for C2 at concrete valid configurations. -/
theorem claim_C2_common_exports_witness :
    exportLookup (awsExports {deploymentType := some "ec2"})
      "deployment_type" = some (.lit "ec2") ∧
    ∃ xs, gcpExports {gcpProject := some "proj"} = .ok xs ∧
      exportLookup xs "project_id" = some (.lit "proj") := by
  have h := claim_C2_common_exports {deploymentType := some "ec2"}
    {deploymentType := some "aks"} {gcpProject := some "proj"} "proj"
    (by decide) (by decide) (by decide) rfl
  exact ⟨h.1, h.2.2.2.2.imp (fun xs hxs => ⟨hxs.1, hxs.2.2⟩)⟩

/-- C4: on the VM/instance branch of each cloud the topology contains the
network perimeter descriptor, whose inbound TCP rules open exactly ports 80
and 8080.  Egress: the AWS security group has an explicit all-protocol
all-port egress rule; the Azure NSG and the GCP firewall declare no
outbound rule at all, leaving the platforms' default allow-all egress in
effect. -/
theorem claim_C4_perimeter (c₁ c₂ c₃ : Config) (p : String)
    (h1 : awsDeploymentType c₁ = "ec2")
    (h2 : azureDeploymentType c₂ = "vm")
    (h3 : gcpDeploymentType c₃ = "compute")
    (hp : c₃.gcpProject = some p) :
    (∃ t, awsResolve c₁ = .ok t ∧
      Res.securityGroup (awsAppName c₁ ++ "-sg")
        (refStr (awsAppName c₁ ++ "-vpc") "vpc_id") "Allow HTTP traffic"
        awsSgIngress awsSgEgress ∈ t) ∧
    (∀ port, port ∈ ingressTcpPorts awsSgIngress ↔
      port = 80 ∨ port = 8080) ∧
    allowsAllEgress awsSgEgress ∧
    (∃ t, azureResolve c₂ = .ok t ∧
      Res.nsg (azureAppName c₂ ++ "-nsg")
        (refStr (azureAppName c₂ ++ "-rg") "name") azureNsgRules ∈ t) ∧
    nsgInboundAllowTcpPorts azureNsgRules = ["80", "8080"] ∧
    nsgOutboundRules azureNsgRules = [] ∧
    (∃ t, gcpResolve c₃ = .ok t ∧
      Res.gcpFirewall (gcpAppName c₃ ++ "-firewall")
        (refStr (gcpAppName c₃ ++ "-network") "self_link") p
        gcpFirewallAllows ["0.0.0.0/0"] [gcpAppName c₃] ∈ t) ∧
    gcpFirewallAllows.flatMap FwAllow.ports = ["80", "8080"] ∧
    (∀ a ∈ gcpFirewallAllows, a.protocol = "tcp") := by
  have hports : ingressTcpPorts awsSgIngress = [8080, 80] := by decide
  have hres1 : awsResolve c₁ =
      .ok (awsShared (awsAppName c₁) ++ awsEc2Branch (awsAppName c₁)) := by
    simp [awsResolve, h1]
  have hres2 : azureResolve c₂ =
      .ok (azureShared (azureAppName c₂) (azureLocation c₂) ++
        azureVmBranch (azureAppName c₂)) := by
    simp [azureResolve, h2]
  have hres3 : gcpResolve c₃ =
      .ok (gcpShared (gcpAppName c₃) (gcpRegion c₃) p ++
        gcpComputeBranch (gcpAppName c₃) (gcpRegion c₃) p (gcpZone c₃)) := by
    simp [gcpResolve, hp, h3]
  refine ⟨?_, ?_, ?_, ?_, by decide, by decide, ?_, by decide, by decide⟩
  · refine ⟨_, hres1, ?_⟩
    simp [awsShared, awsEc2Branch]
  · intro port
    rw [hports]
    simp only [List.mem_cons, List.not_mem_nil, or_false]
    tauto
  · simp [allowsAllEgress, awsSgEgress]
  · refine ⟨_, hres2, ?_⟩
    simp [azureShared, azureVmBranch]
  · refine ⟨_, hres3, ?_⟩
    simp [gcpShared, gcpApis, gcpComputeBranch]

/-- Witness for C4 at concrete VM-branch configurations. -/
theorem claim_C4_perimeter_witness :
    (∃ t, awsResolve {deploymentType := some "ec2"} = .ok t ∧
      Res.securityGroup "multi-cloud-api-sg"
        (refStr "multi-cloud-api-vpc" "vpc_id") "Allow HTTP traffic"
        awsSgIngress awsSgEgress ∈ t) ∧
    nsgInboundAllowTcpPorts azureNsgRules = ["80", "8080"] := by
  have h := claim_C4_perimeter {deploymentType := some "ec2"}
    {deploymentType := some "vm"}
    {deploymentType := some "compute", gcpProject := some "proj"} "proj"
    (by decide) (by decide) (by decide) rfl
  exact ⟨h.1, h.2.2.2.2.1⟩

/-- C6: each VM-branch bootstrap template contains exactly one `docker run`
line, rendered as `docker run -d -p 80:8080` followed by the image built
from the cloud's registry endpoint and the image coordinates, and the
instance descriptor in the resolved topology carries exactly that template
applied to the registry reference. -/
theorem claim_C6_single_docker_run
    (repoUrl loginServer acrName rgName region project repoId an : String)
    (c₁ c₂ c₃ : Config) (p : String)
    (h1 : awsDeploymentType c₁ = "ec2")
    (h2 : azureDeploymentType c₂ = "vm")
    (h3 : gcpDeploymentType c₃ = "compute")
    (hp : c₃.gcpProject = some p) :
    ((awsUserData repoUrl).filter Cmd.isDockerRun).map Cmd.render =
      ["docker run -d -p 80:8080 " ++ (repoUrl ++ ":latest")] ∧
    ((azureCustomData loginServer acrName rgName an).filter
        Cmd.isDockerRun).map Cmd.render =
      ["docker run -d -p 80:8080 "
        ++ (loginServer ++ "/" ++ an ++ ":latest")] ∧
    ((gcpStartupScript region project repoId an).filter
        Cmd.isDockerRun).map Cmd.render =
      ["docker run -d -p 80:8080 "
        ++ (region ++ "-docker.pkg.dev/" ++ project ++ "/" ++ repoId
            ++ "/" ++ an ++ ":latest")] ∧
    (∃ t, awsResolve c₁ = .ok t ∧
      Res.ec2Instance (awsAppName c₁ ++ "-instance") "t3.small"
        [refStr (awsAppName c₁ ++ "-sg") "id"]
        (refStr "amzn2-ami-hvm-*-x86_64-gp2" "id")
        (refStr (awsAppName c₁ ++ "-vpc") "public_subnet_ids[0]")
        (awsUserData (refStr (awsAppName c₁ ++ "-repo") "repository_url"))
        (refStr (awsAppName c₁ ++ "-instance-profile") "name") ∈ t) ∧
    (∃ t, azureResolve c₂ = .ok t ∧
      Res.azureVm (azureAppName c₂ ++ "-vm")
        (refStr (azureAppName c₂ ++ "-rg") "name")
        (refStr (azureAppName c₂ ++ "-nic") "id") "Standard_B2s"
        (azureAppName c₂) "azureuser" "P@ssw0rd123!"
        (azureCustomData (refStr (azureAppName c₂ ++ "acr") "login_server")
          (refStr (azureAppName c₂ ++ "acr") "name")
          (refStr (azureAppName c₂ ++ "-rg") "name") (azureAppName c₂))
        "Canonical" "0001-com-ubuntu-server-focal" "20_04-lts-gen2" ∈ t) ∧
    (∃ t, gcpResolve c₃ = .ok t ∧
      Res.gceInstance (gcpAppName c₃ ++ "-instance") "e2-small"
        (gcpZone c₃) p "ubuntu-os-cloud/ubuntu-2004-lts"
        (refStr (gcpAppName c₃ ++ "-network") "id")
        (gcpStartupScript (gcpRegion c₃) p
          (refStr (gcpAppName c₃ ++ "-repo") "repository_id")
          (gcpAppName c₃))
        (refStr (gcpAppName c₃ ++ "-sa") "email")
        ["https://www.googleapis.com/auth/cloud-platform"]
        [gcpAppName c₃] ∈ t) := by
  have hres1 : awsResolve c₁ =
      .ok (awsShared (awsAppName c₁) ++ awsEc2Branch (awsAppName c₁)) := by
    simp [awsResolve, h1]
  have hres2 : azureResolve c₂ =
      .ok (azureShared (azureAppName c₂) (azureLocation c₂) ++
        azureVmBranch (azureAppName c₂)) := by
    simp [azureResolve, h2]
  have hres3 : gcpResolve c₃ =
      .ok (gcpShared (gcpAppName c₃) (gcpRegion c₃) p ++
        gcpComputeBranch (gcpAppName c₃) (gcpRegion c₃) p (gcpZone c₃)) := by
    simp [gcpResolve, hp, h3]
  refine ⟨rfl, rfl, rfl, ⟨_, hres1, ?_⟩, ⟨_, hres2, ?_⟩, ⟨_, hres3, ?_⟩⟩
  · simp [awsShared, awsEc2Branch]
  · simp [azureShared, azureVmBranch]
  · simp [gcpShared, gcpApis, gcpComputeBranch]

/-- Witness for C6 at concrete template arguments and configurations. -/
theorem claim_C6_single_docker_run_witness :
    ((awsUserData "ECR").filter Cmd.isDockerRun).map Cmd.render =
      ["docker run -d -p 80:8080 ECR:latest"] ∧
    ((azureCustomData "ACR" "reg" "rg" "demo").filter
        Cmd.isDockerRun).map Cmd.render =
      ["docker run -d -p 80:8080 ACR/demo:latest"] := by
  have h := claim_C6_single_docker_run "ECR" "ACR" "reg" "rg" "r" "p"
    "repo" "demo" {deploymentType := some "ec2"}
    {deploymentType := some "vm"}
    {deploymentType := some "compute", gcpProject := some "proj"} "proj"
    (by decide) (by decide) (by decide) rfl
  exact ⟨h.1, h.2.1⟩

/-- C7, counterexample: on the Azure `aks` branch the cluster's agent pool
has a fixed count of 2 with no autoscaling bounds configured, so its size
does not range over 1–3; the claimed `min=1` lower bound is absent. -/
theorem claim_C7_counterexample :
    azureResolve {deploymentType := some "aks"} =
      .ok (azureShared "multi-cloud-api" "eastus" ++
        azureAksBranch "multi-cloud-api") ∧
    (azureShared "multi-cloud-api" "eastus" ++
      azureAksBranch "multi-cloud-api").filterMap Res.nodePool =
      [⟨2, none, none, "Standard_B2s"⟩] ∧
    (⟨2, none, none, "Standard_B2s"⟩ : NodePoolView).minCount ≠ some 1 :=
  ⟨rfl, rfl, by decide⟩

/-- C7, amended: every managed-cluster topology has exactly one node pool of
2 nodes with a fixed per-cloud machine size not taken from the
configuration; only EKS configures the 1–3 autoscaling range (min 1, max 3,
desired 2) — AKS and GKE pin the count at 2 with no range. -/
theorem claim_C7_amended_node_pools (c₁ c₂ c₃ : Config) (p : String)
    (h1 : awsDeploymentType c₁ = "eks")
    (h2 : azureDeploymentType c₂ = "aks")
    (h3 : gcpDeploymentType c₃ = "gke")
    (hp : c₃.gcpProject = some p) :
    (∃ t, awsResolve c₁ = .ok t ∧
      t.filterMap Res.nodePool = [⟨2, some 1, some 3, "t3.medium"⟩]) ∧
    (∃ t, azureResolve c₂ = .ok t ∧
      t.filterMap Res.nodePool = [⟨2, none, none, "Standard_B2s"⟩]) ∧
    (∃ t, gcpResolve c₃ = .ok t ∧
      t.filterMap Res.nodePool = [⟨2, none, none, "e2-medium"⟩]) := by
  have hres1 : awsResolve c₁ =
      .ok (awsShared (awsAppName c₁) ++ awsEksBranch (awsAppName c₁)) := by
    simp [awsResolve, h1]
  have hres2 : azureResolve c₂ =
      .ok (azureShared (azureAppName c₂) (azureLocation c₂) ++
        azureAksBranch (azureAppName c₂)) := by
    simp [azureResolve, h2]
  have hres3 : gcpResolve c₃ =
      .ok (gcpShared (gcpAppName c₃) (gcpRegion c₃) p ++
        gcpGkeBranch (gcpAppName c₃) p (gcpZone c₃)) := by
    simp [gcpResolve, hp, h3]
  refine ⟨⟨_, hres1, ?_⟩, ⟨_, hres2, ?_⟩, ⟨_, hres3, ?_⟩⟩
  · simp [awsShared, awsEksBranch, Res.nodePool]
  · simp [azureShared, azureAksBranch, Res.nodePool]
  · simp [gcpShared, gcpApis, gcpGkeBranch, Res.nodePool]

/-- Witness for the amended C7 at concrete cluster configurations. -/
theorem claim_C7_amended_node_pools_witness :
    (∃ t, awsResolve {deploymentType := some "eks"} = .ok t ∧
      t.filterMap Res.nodePool = [⟨2, some 1, some 3, "t3.medium"⟩]) ∧
    (∃ t,
      gcpResolve {deploymentType := some "gke", gcpProject := some "proj"} =
        .ok t ∧
      t.filterMap Res.nodePool = [⟨2, none, none, "e2-medium"⟩]) := by
  have h := claim_C7_amended_node_pools {deploymentType := some "eks"}
    {deploymentType := some "aks"}
    {deploymentType := some "gke", gcpProject := some "proj"} "proj"
    (by decide) (by decide) (by decide) rfl
  exact ⟨h.1, h.2.2⟩

/-- C10: on the Azure `vm` branch, the virtual-machine descriptor carries
the literal admin credentials `azureuser` / `P@ssw0rd123!`; since this holds
for every configuration selecting the branch, the credentials are
independent of all input values. -/
theorem claim_C10_fixed_admin_credentials (c : Config)
    (h : azureDeploymentType c = "vm") :
    ∃ t, azureResolve c = .ok t ∧
      (∃ r ∈ t, r.vmAdminCreds = some ("azureuser", "P@ssw0rd123!")) ∧
      ∀ r ∈ t, r.vmAdminCreds = none ∨
        r.vmAdminCreds = some ("azureuser", "P@ssw0rd123!") := by
  have hres : azureResolve c =
      .ok (azureShared (azureAppName c) (azureLocation c) ++
        azureVmBranch (azureAppName c)) := by
    simp [azureResolve, h]
  refine ⟨_, hres, ?_, ?_⟩
  · refine ⟨Res.azureVm (azureAppName c ++ "-vm")
      (refStr (azureAppName c ++ "-rg") "name")
      (refStr (azureAppName c ++ "-nic") "id") "Standard_B2s"
      (azureAppName c) "azureuser" "P@ssw0rd123!"
      (azureCustomData (refStr (azureAppName c ++ "acr") "login_server")
        (refStr (azureAppName c ++ "acr") "name")
        (refStr (azureAppName c ++ "-rg") "name") (azureAppName c))
      "Canonical" "0001-com-ubuntu-server-focal" "20_04-lts-gen2",
      ?_, rfl⟩
    simp [azureShared, azureVmBranch]
  · intro r hr
    simp only [azureShared, azureVmBranch, List.mem_append,
      List.mem_cons, List.not_mem_nil, or_false] at hr
    rcases hr with (h' | h') | h' | h' | h' | h' | h' | h' <;>
      subst h' <;> simp [Res.vmAdminCreds]

/-- Witness for C10 at a concrete `vm` configuration. -/
theorem claim_C10_fixed_admin_credentials_witness :
    ∃ t, azureResolve {deploymentType := some "vm"} = .ok t ∧
      (∃ r ∈ t, r.vmAdminCreds = some ("azureuser", "P@ssw0rd123!")) ∧
      ∀ r ∈ t, r.vmAdminCreds = none ∨
        r.vmAdminCreds = some ("azureuser", "P@ssw0rd123!") :=
  claim_C10_fixed_admin_credentials {deploymentType := some "vm"}
    (by decide)

/-- C9: the HTTP service registers exactly two routes, both GET: `/` returns
the fixed greeting object and `/health` returns the object with field
`status` set to `healthy`. -/
theorem claim_C9_two_routes :
    apiRoutes.length = 2 ∧
    (∀ r ∈ apiRoutes, r.method = "GET") ∧
    (apiRoutes.find? (fun r => r.path == "/")).map ApiRoute.response =
      some [("message", "Hello from Multi-Cloud API!")] ∧
    (apiRoutes.find? (fun r => r.path == "/health")).map ApiRoute.response =
      some [("status", "healthy")] := by
  refine ⟨rfl, ?_, rfl, rfl⟩
  decide
